import Mathlib

/-!
Shallow embedding of the Veyra storefront theme's browser-side JavaScript:

* `src/theme/assets/service-worker.js` — the request router and
  cache-strategy selector (strategy classifier, the three strategy
  executors, the fetch-interception guard, the activate-time cache
  cleanup, and the synthesized offline fallback document);
* `src/theme/assets/recently-viewed.js` — the recently-viewed product
  tracker backed by `localStorage`.

Pure JavaScript string operations (`includes`, `startsWith`, `split`,
`replace`, `trim`) are embedded as executable functions on `List Char`,
so every definition evaluates inside the kernel.  Asynchronous effects
(`await`, promise rejection, the background revalidation fetch) are
embedded by explicit state passing: an executor takes the network as an
oracle `String → Option Response` (`none` = the fetch rejects), the two
cache partitions as explicit state, and returns the eventual result,
the eventual cache state, and how many network fetches it issued.  A
propagated promise rejection is the `FetchResult.thrown` outcome.
-/

/-- Substring occurrence on character lists: `sub` occurs contiguously in
`l`.  This is the semantics of JavaScript `String.prototype.includes`. -/
def listContainsSub (l sub : List Char) : Bool :=
  match l with
  | [] => sub.isEmpty
  | _ :: t => sub.isPrefixOf l || listContainsSub t sub

/-- JavaScript `s.includes(sub)`. -/
def jsIncludes (s sub : String) : Bool :=
  listContainsSub s.toList sub.toList

/-- JavaScript `s.startsWith(sub)`. -/
def jsStartsWith (s sub : String) : Bool :=
  sub.toList.isPrefixOf s.toList

/-- `s` ends with `sub`.  Not used by the embedded code (the source uses
`includes`); used only to state spec-side properties that speak of a URL
"ending in" an extension. -/
def jsEndsWith (s sub : String) : Bool :=
  sub.toList.reverse.isPrefixOf s.toList.reverse

/-! ### Module-level constants of service-worker.js (lines 17-46) -/

/-- service-worker.js line 18. -/
def STATIC_CACHE : String := "veyra-static-v1.0.0"

/-- service-worker.js line 19. -/
def DYNAMIC_CACHE : String := "veyra-dynamic-v1.0.0"

/-- The three strategy tags of `CACHE_STRATEGIES` (service-worker.js
lines 22-26): `STATIC` maps to `"cache-first"`, `DYNAMIC` to
`"network-first"`, `HYBRID` to `"stale-while-revalidate"`. -/
def CACHE_STRATEGIES_STATIC : String := "cache-first"

/-- `CACHE_STRATEGIES.DYNAMIC` (service-worker.js line 24). -/
def CACHE_STRATEGIES_DYNAMIC : String := "network-first"

/-- `CACHE_STRATEGIES.HYBRID` (service-worker.js line 25). -/
def CACHE_STRATEGIES_HYBRID : String := "stale-while-revalidate"

/-- `STATIC_ASSETS` (service-worker.js lines 29-38). -/
def STATIC_ASSETS : List String :=
  ["/assets/base.css", "/assets/header.css", "/assets/hero.css",
   "/assets/product-showcase.css", "/assets/main-cart.css",
   "/assets/footer.css", "/assets/performance.js",
   "/assets/service-worker.js"]

/-- `HYBRID_ROUTES` (service-worker.js lines 41-46). -/
def HYBRID_ROUTES : List String :=
  ["/collections/", "/products/", "/pages/", "/blogs/"]

/-- The `staticExtensions` list local to `isStaticAsset`
(service-worker.js line 167). -/
def staticExtensions : List String :=
  [".css", ".js", ".png", ".jpg", ".jpeg", ".gif", ".webp", ".svg",
   ".woff", ".woff2", ".ttf"]

/-! ### Strategy classifier (service-worker.js lines 145-178) -/

/-- `isStaticAsset` (service-worker.js lines 165-171): the pathname
contains one of the static extensions as a substring, or contains one of
the pre-cached asset paths as a substring.  The source passes the whole
request and reads `url.pathname`; here the pathname is the argument. -/
def isStaticAsset (pathname : String) : Bool :=
  staticExtensions.any (fun ext => jsIncludes pathname ext) ||
  STATIC_ASSETS.any (fun asset => jsIncludes pathname asset)

/-- `isHybridRoute` (service-worker.js lines 176-178). -/
def isHybridRoute (pathname : String) : Bool :=
  HYBRID_ROUTES.any (fun route => jsStartsWith pathname route)

/-- `determineCachingStrategy` (service-worker.js lines 145-160), as a
function of the request URL's pathname.  It is a total pure Lean
function, hence deterministic and side-effect free. -/
def determineCachingStrategy (pathname : String) : String :=
  if isStaticAsset pathname then CACHE_STRATEGIES_STATIC
  else if isHybridRoute pathname then CACHE_STRATEGIES_HYBRID
  else CACHE_STRATEGIES_DYNAMIC

/-! ### Responses, cache partitions, executor state -/

/-- A network/cache response: its `ok` status flag, its body, and its
`Content-Type` header (the only header the source ever sets, at
service-worker.js line 296). -/
structure Response where
  ok : Bool
  body : String
  contentType : String
deriving DecidableEq

/-- A cache partition: an association list from request URL to stored
response, newest entry first. -/
abbrev Partition := List (String × Response)

/-- `cache.match(request)` on a partition: the stored response for this
URL, if any. -/
def Partition.matchReq (p : Partition) (url : String) : Option Response :=
  p.lookup url

/-- `cache.put(request, response)` on a partition: replace any entry for
this URL with the new response. -/
def Partition.put (p : Partition) (url : String) (r : Response) : Partition :=
  (url, r) :: p.filter (fun e => e.1 != url)

/-- The two live cache partitions (`STATIC_CACHE` and `DYNAMIC_CACHE`)
an executor can read and write. -/
structure CacheState where
  staticP : Partition
  dynamicP : Partition
deriving DecidableEq

/-- Outcome of one strategy executor run: either a returned response or
a propagated promise rejection (`thrown`). -/
inductive FetchResult where
  | ok (r : Response)
  | thrown
deriving DecidableEq

/-- What one executor run produces: its outcome, the eventual cache
state (background writes included), and the number of network fetches
it issued. -/
structure ExecOut where
  result : FetchResult
  state : CacheState
  fetches : Nat
deriving DecidableEq

/-! ### Offline fallback document (service-worker.js lines 267-299) -/

/-- The synthesized offline HTML document (service-worker.js lines
277-294), the body of the `Response` built when no cached
`/offline.html` exists. -/
def offlineHTML : String :=
  "\n    <!DOCTYPE html>\n    <html>\n      <head>\n        <title>Veyra Clothing - Offline</title>\n        <style>\n          body \x7b font-family: system-ui, sans-serif; text-align: center; padding: 50px; \x7d\n          .offline-message \x7b color: #666; margin: 20px 0; \x7d\n          .retry-btn \x7b background: #e63946; color: white; padding: 12px 24px; border: none; border-radius: 25px; cursor: pointer; \x7d\n        </style>\n      </head>\n      <body>\n        <h1>You\x27re Offline</h1>\n        <p class=\"offline-message\">Please check your internet connection and try again.</p>\n        <button class=\"retry-btn\" onclick=\"window.location.reload()\">Retry</button>\n      </body>\n    </html>\n    "

/-- The `new Response(..., { headers: { Content-Type: text/html } })`
built at service-worker.js lines 276-298; a constructed `Response` has
status 200, hence `ok := true`. -/
def offlineFallbackResponse : Response :=
  { ok := true, body := offlineHTML, contentType := "text/html" }

/-- `getOfflineResponse` (service-worker.js lines 267-299): return the
response cached in the static partition under `/offline.html` if
present, otherwise the synthesized offline document.  It only reads the
cache state. -/
def getOfflineResponse (st : CacheState) : Response :=
  match st.staticP.matchReq "/offline.html" with
  | some r => r
  | none => offlineFallbackResponse

/-! ### Strategy executors (service-worker.js lines 184-262) -/

/-- `cacheFirst` (service-worker.js lines 184-204).  Hit in the static
partition: return it, no fetch.  Miss: fetch; on an `ok` response store
a clone into the static partition and return it; on a non-`ok` response
return it uncached; on a rejected fetch re-`throw` (`thrown`). -/
def cacheFirst (net : String → Option Response) (url : String)
    (st : CacheState) : ExecOut :=
  match st.staticP.matchReq url with
  | some cached => ⟨.ok cached, st, 0⟩
  | none =>
    match net url with
    | some nr =>
      if nr.ok then
        ⟨.ok nr, { st with staticP := st.staticP.put url nr }, 1⟩
      else ⟨.ok nr, st, 1⟩
    | none => ⟨.thrown, st, 1⟩

/-- `networkFirst` (service-worker.js lines 210-231).  Fetch first; on
an `ok` response store a clone into the dynamic partition and return
it; on a non-`ok` response return it uncached; on a rejected fetch fall
back to the dynamic partition, and when that also misses return
`getOfflineResponse`. -/
def networkFirst (net : String → Option Response) (url : String)
    (st : CacheState) : ExecOut :=
  match net url with
  | some nr =>
    if nr.ok then
      ⟨.ok nr, { st with dynamicP := st.dynamicP.put url nr }, 1⟩
    else ⟨.ok nr, st, 1⟩
  | none =>
    match st.dynamicP.matchReq url with
    | some cached => ⟨.ok cached, st, 1⟩
    | none => ⟨.ok (getOfflineResponse st), st, 1⟩

/-- `staleWhileRevalidate` (service-worker.js lines 237-262).  Hit in
the dynamic partition: return the cached copy and issue a background
fetch whose `ok` result overwrites the dynamic entry and whose failure
or non-`ok` result is dropped; the returned value is the cached copy in
every branch.  Miss: delegate to `networkFirst`. -/
def staleWhileRevalidate (net : String → Option Response) (url : String)
    (st : CacheState) : ExecOut :=
  match st.dynamicP.matchReq url with
  | some cached =>
    match net url with
    | some nr =>
      if nr.ok then
        ⟨.ok cached, { st with dynamicP := st.dynamicP.put url nr }, 1⟩
      else ⟨.ok cached, st, 1⟩
    | none => ⟨.ok cached, st, 1⟩
  | none => networkFirst net url st

/-! ### Fetch-event interception guard (service-worker.js lines 110-140) -/

/-- The fields of an intercepted request the fetch listener reads. -/
structure SWRequest where
  method : String
  origin : String
  pathname : String

/-- Whether the fetch listener (service-worker.js lines 110-140) calls
`event.respondWith` for a request: it returns early when the method is
not `GET` or when `url.origin.includes(self.location.origin)` is false
(line 115), returns early when the Cache Storage API is unavailable
(lines 120-122), and otherwise responds via one of the executors (every
`switch` branch, the `default` included, calls `respondWith`). -/
def fetchIntercepts (swOrigin : String) (cachesAvailable : Bool)
    (req : SWRequest) : Bool :=
  if req.method != "GET" || !(jsIncludes req.origin swOrigin) then false
  else if !cachesAvailable then false
  else true

/-! ### Activate-time cache cleanup (service-worker.js lines 79-105) -/

/-- The whole Cache Storage: named partitions, as an association list. -/
abbrev CacheStorage := List (String × Partition)

/-- The cache cleanup the activate listener performs (service-worker.js
lines 85-95): every partition whose name is neither `STATIC_CACHE` nor
`DYNAMIC_CACHE` is deleted; the two current partitions are kept. -/
def activateCleanup (storage : CacheStorage) : CacheStorage :=
  storage.filter (fun e => e.1 == STATIC_CACHE || e.1 == DYNAMIC_CACHE)

/-! ### Recently-viewed tracker (recently-viewed.js) -/

/-- Replace the first occurrence of `pat` in a character list by `rep`;
the semantics of JavaScript `s.replace(pat, rep)` with string
arguments (first occurrence only, identity when `pat` is absent). -/
def replaceFirstChars (pat rep : List Char) : List Char → List Char
  | [] => []
  | c :: rest =>
    if pat.isPrefixOf (c :: rest) then rep ++ (c :: rest).drop pat.length
    else c :: replaceFirstChars pat rep rest

/-- JavaScript `s.replace(pat, rep)` on strings. -/
def jsReplaceFirst (s pat rep : String) : String :=
  String.mk (replaceFirstChars pat.toList rep.toList s.toList)

/-- JavaScript `s.trim()`: strip leading and trailing whitespace. -/
def jsTrim (s : String) : String :=
  String.mk
    (((s.toList.dropWhile Char.isWhitespace).reverse.dropWhile
        Char.isWhitespace).reverse)

/-- JavaScript `pathname.split(sep)` for a one-character separator (the
source only ever splits on `/`). -/
def jsSplitOnChar (sep : Char) (s : String) : List String :=
  (s.toList.splitOn sep).map String.mk

/-- `RecentlyViewed.maxProducts` (recently-viewed.js line 15). -/
def maxProducts : Nat := 6

/-- One stored recently-viewed entry: the object literal built by
`getCurrentProductData` (recently-viewed.js lines 73-79). -/
structure RVProduct where
  handle : String
  title : String
  image : String
  price : String
  url : String
deriving DecidableEq

/-- `RecentlyViewed.getProductHandle` (recently-viewed.js lines 53-57):
split the pathname on `/`, find the first part equal to `products`, and
return the following part when it exists and is non-empty (JavaScript
truthiness of a string). -/
def getProductHandle (pathname : String) : Option String :=
  let pathParts := jsSplitOnChar '/' pathname
  match pathParts.findIdx? (fun part => part == "products") with
  | some productIndex =>
    match pathParts[productIndex + 1]? with
    | some h => if h != "" then some h else none
    | none => none
  | none => none

/-- `RecentlyViewed.getCurrentProductData` (recently-viewed.js lines
60-83).  `title`, `image` and `priceStr` are the strings the DOM
queries resolve to (empty when the element is absent); `priceStr` is
the already-formatted price text, since the source's
`parseFloat(price).toFixed(2)` is floating-point formatting that does
not affect any property below.  Returns `none` unless both the title
and the handle are truthy. -/
def getCurrentProductData (pathname title image priceStr : String) :
    Option RVProduct :=
  match getProductHandle pathname with
  | some handle =>
    if title != "" then
      some { handle := handle,
             title := jsTrim (jsReplaceFirst title " | Veyra Clothing" ""),
             image := image,
             price := priceStr,
             url := pathname }
    else none
  | none => none

/-- `RecentlyViewed.trackProductViews` (recently-viewed.js lines
23-50).  `stored` is the list parsed from `localStorage` by
`getRecentlyViewed` (which yields `[]` when the key is absent or the
stored JSON does not parse).  The result is `some newList` when the
tracker writes `newList` back to `localStorage`, and `none` when it
returns without writing (not a product page, no handle, or no product
data). -/
def trackProductViews (pathname title image priceStr : String)
    (stored : List RVProduct) : Option (List RVProduct) :=
  if !(jsIncludes pathname "/products/") then none
  else
    match getProductHandle pathname with
    | none => none
    | some productHandle =>
      let recentlyViewed :=
        stored.filter (fun item => item.handle != productHandle)
      match getCurrentProductData pathname title image priceStr with
      | some currentProduct =>
        let updated := currentProduct :: recentlyViewed
        some (if updated.length > maxProducts
              then updated.take maxProducts else updated)
      | none => none

/-- The stored lists the tracker itself can produce: the empty list
(`localStorage` initially empty, or unparsable), and any list written
by a run of `trackProductViews` from a producible list. -/
inductive RVReachable : List RVProduct → Prop where
  | init : RVReachable []
  | step (pathname title image priceStr : String)
      (stored next : List RVProduct) :
      RVReachable stored →
      trackProductViews pathname title image priceStr stored = some next →
      RVReachable next

/-! ### Spec-side predicates for the classifier -/

/-- Spec-side predicate, following the corrected wording of the
classifier rule: the path contains one of the static extensions, or one
of the pre-cached asset paths, as a substring. -/
def specStaticPath (pathname : String) : Prop :=
  (∃ ext ∈ staticExtensions, jsIncludes pathname ext = true) ∨
  (∃ asset ∈ STATIC_ASSETS, jsIncludes pathname asset = true)

/-- Spec-side predicate: the path starts with one of the hybrid route
prefixes. -/
def specHybridPath (pathname : String) : Prop :=
  ∃ route ∈ HYBRID_ROUTES, jsStartsWith pathname route = true

/-! ## Claims -/

/-- C1 (amended): the strategy classifier is a total pure function of
the URL pathname; it returns `cache-first` exactly when the path
contains a static extension or a pre-cached asset path as a substring;
`stale-while-revalidate` exactly when it is not such a static path and
starts with a hybrid-route prefix; and `network-first` exactly in the
remaining cases. -/
theorem classifier_full_case_analysis (pathname : String) :
    (determineCachingStrategy pathname = "cache-first" ↔
      specStaticPath pathname) ∧
    (determineCachingStrategy pathname = "stale-while-revalidate" ↔
      (¬ specStaticPath pathname ∧ specHybridPath pathname)) ∧
    (determineCachingStrategy pathname = "network-first" ↔
      (¬ specStaticPath pathname ∧ ¬ specHybridPath pathname)) := by
  have h1 : specStaticPath pathname ↔ isStaticAsset pathname = true := by
    simp [specStaticPath, isStaticAsset, List.any_eq_true, Bool.or_eq_true]
  have h2 : specHybridPath pathname ↔ isHybridRoute pathname = true := by
    simp [specHybridPath, isHybridRoute, List.any_eq_true]
  by_cases hs : isStaticAsset pathname = true <;>
    by_cases hh : isHybridRoute pathname = true <;>
      simp [determineCachingStrategy, CACHE_STRATEGIES_STATIC,
        CACHE_STRATEGIES_HYBRID, CACHE_STRATEGIES_DYNAMIC, hs, hh, h1, h2]

/-- C1 counterexample: the path `/cart.json` ends in no static
extension and starts with no hybrid-route prefix, so the claim as
stated requires `network-first`; the classifier returns `cache-first`
(the substring check matches `.js` inside `.json`). -/
theorem classifier_claim_counterexample :
    (staticExtensions.all fun ext => !(jsEndsWith "/cart.json" ext)) = true ∧
    (HYBRID_ROUTES.all fun route => !(jsStartsWith "/cart.json" route)) = true ∧
    determineCachingStrategy "/cart.json" = "cache-first" := by decide

/-- C2: evaluation of the classifier on the spec's three examples.  The
first two match the spec (`/assets/base.css` is cache-first,
`/collections/summer` is stale-while-revalidate); on `/cart.js` the
code returns `cache-first` where the spec's example, and the code's own
comment that cart data is dynamic content, say `network-first`. -/
theorem classifier_spec_examples_eval :
    determineCachingStrategy "/assets/base.css" = "cache-first" ∧
    determineCachingStrategy "/collections/summer" = "stale-while-revalidate" ∧
    determineCachingStrategy "/cart.js" = "cache-first" := by decide

/-- Helper: the network-first executor returns a response on every
path. -/
theorem networkFirst_returns_ok (net : String → Option Response)
    (url : String) (st : CacheState) :
    ∃ r, (networkFirst net url st).result = .ok r := by
  unfold networkFirst
  cases hn : net url with
  | some nr =>
    by_cases hok : nr.ok = true
    · exact ⟨nr, by simp [hok]⟩
    · exact ⟨nr, by simp [hok]⟩
  | none =>
    cases hd : st.dynamicP.matchReq url with
    | some cached => exact ⟨cached, rfl⟩
    | none => exact ⟨getOfflineResponse st, rfl⟩

/-- Helper: the stale-while-revalidate executor returns a response on
every path. -/
theorem staleWhileRevalidate_returns_ok (net : String → Option Response)
    (url : String) (st : CacheState) :
    ∃ r, (staleWhileRevalidate net url st).result = .ok r := by
  unfold staleWhileRevalidate
  cases hd : st.dynamicP.matchReq url with
  | some cached =>
    cases hn : net url with
    | some nr =>
      by_cases hok : nr.ok = true
      · exact ⟨cached, by simp [hok]⟩
      · exact ⟨cached, by simp [hok]⟩
    | none => exact ⟨cached, rfl⟩
  | none => exact networkFirst_returns_ok net url st

/-- Helper: the cache-first executor propagates a rejection exactly when
the static partition misses and the network fetch rejects. -/
theorem cacheFirst_thrown_iff (net : String → Option Response)
    (url : String) (st : CacheState) :
    (cacheFirst net url st).result = .thrown ↔
      (st.staticP.matchReq url = none ∧ net url = none) := by
  unfold cacheFirst
  cases hc : st.staticP.matchReq url with
  | some cached => simp
  | none =>
    cases hn : net url with
    | some nr => by_cases hok : nr.ok = true <;> simp [hok]
    | none => simp

/-- C3 (amended): the network-first and stale-while-revalidate
executors terminate with a returned response on every path; the
cache-first executor propagates the network failure back to the page
exactly when the static partition misses and the fetch rejects (the
source re-`throw`s there), and returns a response in every other
case. -/
theorem executors_error_behavior (net : String → Option Response)
    (url : String) (st : CacheState) :
    (∃ r, (networkFirst net url st).result = .ok r) ∧
    (∃ r, (staleWhileRevalidate net url st).result = .ok r) ∧
    ((cacheFirst net url st).result = .thrown ↔
      (st.staticP.matchReq url = none ∧ net url = none)) :=
  ⟨networkFirst_returns_ok net url st,
   staleWhileRevalidate_returns_ok net url st,
   cacheFirst_thrown_iff net url st⟩

/-- C3 counterexample: with an empty static partition and a rejecting
network, the cache-first executor propagates the rejection instead of
returning a response. -/
theorem cacheFirst_throws_counterexample :
    (cacheFirst (fun _ => none) "/assets/missing.css" ⟨[], []⟩).result =
      .thrown := rfl

/-- C4 (amended): the fetch listener intercepts a request exactly when
the method is `GET`, the request origin contains the worker's origin as
a substring (`url.origin.includes(self.location.origin)`), and the
Cache Storage API is available. -/
theorem fetch_intercept_characterization (swOrigin : String)
    (cachesAvailable : Bool) (req : SWRequest) :
    fetchIntercepts swOrigin cachesAvailable req = true ↔
      (req.method = "GET" ∧ jsIncludes req.origin swOrigin = true ∧
        cachesAvailable = true) := by
  unfold fetchIntercepts
  by_cases hm : req.method = "GET" <;>
    by_cases ho : jsIncludes req.origin swOrigin = true <;>
      cases cachesAvailable <;> simp [hm, ho]

/-- C4 counterexample: a `GET` request from the foreign origin
`https://veyra.com.evil.example` is intercepted by a worker whose own
origin is `https://veyra.com`, although the two origins are not equal:
the source tests origin containment, not origin equality. -/
theorem fetch_intercept_counterexample :
    fetchIntercepts "https://veyra.com" true
        { method := "GET", origin := "https://veyra.com.evil.example",
          pathname := "/" } = true ∧
      "https://veyra.com.evil.example" ≠ "https://veyra.com" := by decide

/-- C5: on a static-partition hit, the cache-first executor returns the
cached response, issues zero network fetches, and leaves both cache
partitions exactly as they were. -/
theorem cacheFirst_hit_no_fetch (net : String → Option Response)
    (url : String) (st : CacheState) (cached : Response)
    (hhit : st.staticP.matchReq url = some cached) :
    cacheFirst net url st = ⟨.ok cached, st, 0⟩ := by
  unfold cacheFirst
  rw [hhit]

/-- A sample cached stylesheet response used by concrete witnesses. -/
def sampleCSSResponse : Response :=
  { ok := true, body := "base styles", contentType := "text/css" }

/-- C5 witness: a concrete pre-populated static partition on which the
cache-first executor serves the hit without fetching. -/
theorem cacheFirst_hit_no_fetch_witness :
    cacheFirst (fun _ => none) "/assets/base.css"
        ⟨[("/assets/base.css", sampleCSSResponse)], []⟩ =
      ⟨.ok sampleCSSResponse,
        ⟨[("/assets/base.css", sampleCSSResponse)], []⟩, 0⟩ :=
  cacheFirst_hit_no_fetch (fun _ => none) "/assets/base.css"
    ⟨[("/assets/base.css", sampleCSSResponse)], []⟩ sampleCSSResponse rfl

/-- C7: on a dynamic-partition miss, the stale-while-revalidate
executor produces exactly what the network-first executor produces:
same result, same eventual cache state, same number of fetches. -/
theorem swr_miss_delegates_to_networkFirst (net : String → Option Response)
    (url : String) (st : CacheState)
    (hmiss : st.dynamicP.matchReq url = none) :
    staleWhileRevalidate net url st = networkFirst net url st := by
  unfold staleWhileRevalidate
  rw [hmiss]

/-- C7 witness: concrete delegation on an empty dynamic partition. -/
theorem swr_miss_delegates_witness :
    staleWhileRevalidate (fun _ => none) "/collections/summer" ⟨[], []⟩ =
      networkFirst (fun _ => none) "/collections/summer" ⟨[], []⟩ :=
  swr_miss_delegates_to_networkFirst (fun _ => none) "/collections/summer"
    ⟨[], []⟩ rfl

/-- C9: for every request, network oracle and starting cache state, the
cache-first executor leaves the dynamic partition untouched, and the
network-first and stale-while-revalidate executors leave the static
partition untouched (the offline fallback only reads it). -/
theorem executors_partition_frame (net : String → Option Response)
    (url : String) (st : CacheState) :
    (cacheFirst net url st).state.dynamicP = st.dynamicP ∧
    (networkFirst net url st).state.staticP = st.staticP ∧
    (staleWhileRevalidate net url st).state.staticP = st.staticP := by
  have hnf : (networkFirst net url st).state.staticP = st.staticP := by
    unfold networkFirst
    cases hn : net url with
    | some nr => by_cases hok : nr.ok = true <;> simp [hok]
    | none => cases hd : st.dynamicP.matchReq url <;> simp
  refine ⟨?_, hnf, ?_⟩
  · unfold cacheFirst
    cases hc : st.staticP.matchReq url with
    | some cached => rfl
    | none =>
      cases hn : net url with
      | some nr => by_cases hok : nr.ok = true <;> simp [hok]
      | none => rfl
  · unfold staleWhileRevalidate
    cases hd : st.dynamicP.matchReq url with
    | some cached =>
      cases hn : net url with
      | some nr => by_cases hok : nr.ok = true <;> simp [hok]
      | none => rfl
    | none => exact hnf

set_option maxRecDepth 10000

/-- C6 (amended): when the network fetch rejects, the dynamic partition
misses the request, and the static partition holds no `/offline.html`
entry, the network-first executor returns the synthesized offline
document: its body contains the literal text `You're Offline` and its
`Content-Type` is `text/html`. -/
theorem networkFirst_offline_document (net : String → Option Response)
    (url : String) (st : CacheState)
    (hnet : net url = none)
    (hdyn : st.dynamicP.matchReq url = none)
    (hoff : st.staticP.matchReq "/offline.html" = none) :
    (networkFirst net url st).result = .ok offlineFallbackResponse ∧
    jsIncludes offlineFallbackResponse.body "You\x27re Offline" = true ∧
    offlineFallbackResponse.contentType = "text/html" := by
  refine ⟨?_, by decide, rfl⟩
  simp [networkFirst, hnet, hdyn, getOfflineResponse, hoff]

/-- C6 witness: concrete rejecting network and empty partitions. -/
theorem networkFirst_offline_document_witness :
    (networkFirst (fun _ => none) "/cart" ⟨[], []⟩).result =
        .ok offlineFallbackResponse ∧
      jsIncludes offlineFallbackResponse.body "You\x27re Offline" = true ∧
      offlineFallbackResponse.contentType = "text/html" :=
  networkFirst_offline_document (fun _ => none) "/cart" ⟨[], []⟩ rfl rfl rfl

/-- A store-authored offline page a deployment may have cached under
`/offline.html`; its body does not contain `You're Offline`. -/
def customOfflinePage : Response :=
  { ok := true, body := "Site maintenance in progress", contentType := "text/html" }

/-- C6 counterexample: with the network rejecting and the dynamic
partition empty, a static partition holding a `/offline.html` entry
makes the network-first executor return that cached page, whose body
does not contain the literal text `You're Offline`: the claim omits the
`/offline.html` lookup `getOfflineResponse` performs first. -/
theorem networkFirst_offline_counterexample :
    (networkFirst (fun _ => none) "/cart"
        ⟨[("/offline.html", customOfflinePage)], []⟩).result =
        .ok customOfflinePage ∧
      jsIncludes customOfflinePage.body "You\x27re Offline" = false := by
  decide

/-- C8: the activate-time cleanup keeps a partition exactly when its
name is the current static or the current dynamic partition name — the
lookup of every other name becomes `none` (deleted), and the lookup of
the two current names is unchanged, contents included. -/
theorem activate_cleanup_lookup (storage : CacheStorage) (name : String) :
    (activateCleanup storage).lookup name =
      if name = STATIC_CACHE ∨ name = DYNAMIC_CACHE
      then storage.lookup name else none := by
  induction storage with
  | nil => simp [activateCleanup]
  | cons entry rest ih =>
    obtain ⟨k, part⟩ := entry
    have hstep : activateCleanup ((k, part) :: rest) =
        if (k == STATIC_CACHE || k == DYNAMIC_CACHE) = true
        then (k, part) :: activateCleanup rest
        else activateCleanup rest := by
      simp [activateCleanup, List.filter_cons]
    by_cases hk : k = STATIC_CACHE ∨ k = DYNAMIC_CACHE
    · have hf : (k == STATIC_CACHE || k == DYNAMIC_CACHE) = true := by
        rcases hk with h | h <;> simp [h]
      rw [hstep, if_pos hf]
      by_cases hnk : name = k
      · subst hnk
        simp [List.lookup, hk]
      · have hbne : (name == k) = false := by simp [hnk]
        simp [List.lookup, hbne, ih]
    · have hf : (k == STATIC_CACHE || k == DYNAMIC_CACHE) = false := by
        push_neg at hk
        simp [hk.1, hk.2]
      rw [hstep, if_neg (by simp [hf])]
      rw [ih]
      by_cases hn : name = STATIC_CACHE ∨ name = DYNAMIC_CACHE
      · have hne : name ≠ k := by
          push_neg at hk
          rcases hn with h | h
          · subst h; exact fun hcontra => hk.1 hcontra.symm
          · subst h; exact fun hcontra => hk.2 hcontra.symm
        have hnk : (name == k) = false := beq_eq_false_iff_ne.mpr hne
        simp [hn, List.lookup, hnk]
      · simp [hn]

/-- Helper: a successful `getCurrentProductData` stores exactly the
handle `getProductHandle` extracts from the pathname. -/
theorem getCurrentProductData_handle (pathname title image priceStr : String)
    (prod : RVProduct)
    (h : getCurrentProductData pathname title image priceStr = some prod) :
    getProductHandle pathname = some prod.handle := by
  unfold getCurrentProductData at h
  split at h
  · rename_i hd hg
    split at h
    · injection h with h2
      rw [hg, ← h2]
    · exact Option.noConfusion h
  · exact Option.noConfusion h

/-- Helper: closed form of the list a successful tracker run writes:
the current product consed onto the stored list purged of entries with
the same handle, truncated to `maxProducts` when it overflows. -/
theorem trackProductViews_shape (pathname title image priceStr : String)
    (stored next : List RVProduct)
    (h : trackProductViews pathname title image priceStr stored = some next) :
    ∃ current productHandle,
      getCurrentProductData pathname title image priceStr = some current ∧
      getProductHandle pathname = some productHandle ∧
      current.handle = productHandle ∧
      next =
        (if (current :: stored.filter fun item =>
              item.handle != productHandle).length > maxProducts
         then (current :: stored.filter fun item =>
              item.handle != productHandle).take maxProducts
         else (current :: stored.filter fun item =>
              item.handle != productHandle)) := by
  unfold trackProductViews at h
  split at h
  · exact Option.noConfusion h
  · split at h
    · exact Option.noConfusion h
    · rename_i productHandle hg
      split at h
      · rename_i current hc
        injection h with h2
        have hh := getCurrentProductData_handle pathname title image priceStr
          current hc
        rw [hg] at hh
        injection hh with h3
        exact ⟨current, productHandle, hc, hg, h3.symm, h2.symm⟩
      · exact Option.noConfusion h

/-- Helper: consing the current product onto the purged stored list
keeps the handles duplicate-free. -/
theorem cons_filter_nodup (current : RVProduct) (stored : List RVProduct)
    (productHandle : String)
    (hhandle : current.handle = productHandle)
    (h : (stored.map RVProduct.handle).Nodup) :
    ((current :: stored.filter fun item =>
        item.handle != productHandle).map RVProduct.handle).Nodup := by
  rw [List.map_cons]
  refine List.nodup_cons.mpr ⟨?_, ?_⟩
  · intro hmem
    rw [List.mem_map] at hmem
    obtain ⟨item, hitem, heq⟩ := hmem
    have hf := List.of_mem_filter hitem
    rw [heq, hhandle] at hf
    simp at hf
  · exact List.Nodup.sublist
      ((List.filter_sublist stored).map RVProduct.handle) h

/-- Helper: every list the tracker can have stored has duplicate-free
handles. -/
theorem rvReachable_nodup (l : List RVProduct) (h : RVReachable l) :
    (l.map RVProduct.handle).Nodup := by
  induction h with
  | init => simp
  | step pathname title image priceStr stored next _ hrun ih =>
    obtain ⟨current, productHandle, hc, hg, hh, hnext⟩ :=
      trackProductViews_shape pathname title image priceStr stored next hrun
    subst hnext
    split
    · exact List.Nodup.sublist
        ((List.take_sublist _ _).map RVProduct.handle)
        (cons_filter_nodup current stored productHandle hh ih)
    · exact cons_filter_nodup current stored productHandle hh ih

/-- C10: after every run of the tracker that writes to `localStorage`
(starting from any list the tracker itself can have stored), the stored
list has length at most `maxProducts = 6`, no two entries share a
product handle, and the currently viewed product is its first
element. -/
theorem recently_viewed_invariant (pathname title image priceStr : String)
    (stored next : List RVProduct)
    (hreach : RVReachable stored)
    (hrun : trackProductViews pathname title image priceStr stored = some next) :
    next.length ≤ maxProducts ∧
    (next.map RVProduct.handle).Nodup ∧
    ∃ current,
      getCurrentProductData pathname title image priceStr = some current ∧
      next.head? = some current := by
  obtain ⟨current, productHandle, hc, hg, hh, hnext⟩ :=
    trackProductViews_shape pathname title image priceStr stored next hrun
  subst hnext
  refine ⟨?_, ?_, current, hc, ?_⟩
  · split
    · rw [List.length_take]
      exact Nat.min_le_left _ _
    · rename_i hle
      exact Nat.not_lt.mp hle
  · split
    · exact List.Nodup.sublist
        ((List.take_sublist _ _).map RVProduct.handle)
        (cons_filter_nodup current stored productHandle hh
          (rvReachable_nodup stored hreach))
    · exact cons_filter_nodup current stored productHandle hh
        (rvReachable_nodup stored hreach)
  · split
    · rfl
    · rfl

/-- C10 witness: a concrete first product view on an empty store. -/
theorem recently_viewed_invariant_witness :
    ([⟨"tee", "Tee", "", "", "/products/tee"⟩] : List RVProduct).length ≤
        maxProducts ∧
      (([⟨"tee", "Tee", "", "", "/products/tee"⟩] :
          List RVProduct).map RVProduct.handle).Nodup ∧
      ∃ current,
        getCurrentProductData "/products/tee" "Tee" "" "" = some current ∧
        ([⟨"tee", "Tee", "", "", "/products/tee"⟩] :
            List RVProduct).head? = some current :=
  recently_viewed_invariant "/products/tee" "Tee" "" "" []
    [⟨"tee", "Tee", "", "", "/products/tee"⟩] RVReachable.init (by decide)
